import Mathlib

/-!
Verification of the ethsphere backend core against its specification.

The definitions below are a shallow embedding of the JavaScript source:

* `Config`, `Config.Valid` — `backend/src/config.js` (stack parameters and
  the `validateConfig` constraint `STACK_CAPACITY > STACK_RESUME_THRESHOLD`).
* `addToStack`, `popTransactions`, `fetchLatestTransactions` — the
  `BlockchainService` class (ingestion loop, bounded pending stack with
  suspend/resume hysteresis, legacy LIFO pop).
* `rotateApiKey`, `executeWithRetry`, `getBalance` — the credential-rotating
  failover client of the same class.
* `insertTransaction`, `queryRoute` — `backend/src/database.js` and the
  `/query` route (upsert semantics, SELECT-only validation).
* `extractSql`, `nlToSqlRoute`, `convertNaturalLanguageToSQL` — the
  `/nl-to-sql` route, its provider-response validation and the rule-based
  converter.

JavaScript arrays are Lean lists (index 0 = oldest element, the end of the
list = the top of the stack, matching `push`/`pop`); JavaScript numbers that
the code uses as integers are `Int`/`Nat`; fallible calls are `Except` or
`Option` values supplied by the environment.
-/

namespace EthSphere

/-- Stack-related configuration from `backend/src/config.js`. -/
structure Config where
  stackCapacity : Nat
  stackResumeThreshold : Nat

/-- The `validateConfig` startup check: `STACK_CAPACITY` must be strictly
greater than `STACK_RESUME_THRESHOLD` (the process exits otherwise). -/
def Config.Valid (cfg : Config) : Prop :=
  cfg.stackResumeThreshold < cfg.stackCapacity

/-- A provider transaction object as consumed by `addToStack`. -/
structure Tx where
  hash : String
  blockNumber : Int := 0
  fromAddr : Option String := none
  toAddr : Option String := none
  value : Option String := none
  gasPrice : Option String := none
  gasLimit : Option Int := none
  nonce : Option Int := none
  dataField : Option String := none
deriving DecidableEq

/-- JS `a || d` for an optional string field: `undefined` and `""` are falsy. -/
def jsOrStr (v : Option String) (d : String) : String :=
  match v with
  | none => d
  | some s => if s = "" then d else s

/-- JS `a || d` for an optional integer field: `undefined` and `0` are falsy. -/
def jsOrInt (v : Option Int) (d : Int) : Int :=
  match v with
  | none => d
  | some k => if k = 0 then d else k

/-- The record shape `addToStack` builds before handing the batch to the
database (`data` is elided to the empty string to save space). -/
structure FormattedTx where
  hash : String
  blockNumber : Int
  fromAddr : Option String
  toAddr : Option String
  value : String
  gasPrice : String
  gasLimit : Int
  nonce : Int
  dataField : String
deriving DecidableEq

/-- The `transactions.map(tx => ({...}))` formatting step of `addToStack`. -/
def formatTx (tx : Tx) : FormattedTx :=
  { hash := tx.hash
    blockNumber := tx.blockNumber
    fromAddr := tx.fromAddr
    toAddr := tx.toAddr
    value := jsOrStr tx.value "0"
    gasPrice := jsOrStr tx.gasPrice "0"
    gasLimit := jsOrInt tx.gasLimit 0
    nonce := jsOrInt tx.nonce 0
    dataField := "" }

/-- The mutable service state: the in-memory pending stack (JS array, end of
the list = top of the stack) and the ingestion gate flag
(`fetchingEnabled = true` is the spec's ENABLED state). -/
structure SvcState where
  pendingStack : List String
  fetchingEnabled : Bool
deriving DecidableEq

/-- The constructor state: empty stack, ingestion enabled. -/
def initState : SvcState :=
  { pendingStack := [], fetchingEnabled := true }

/-- JS `arr.slice(-k)`: keeps the last `k` elements; `slice(-0)` is
`slice(0)` and keeps the whole array. -/
def jsSliceLast (k : Nat) (l : List α) : List α :=
  if k = 0 then l else l.drop (l.length - k)

/-- Embedding of `BlockchainService.addToStack`: on database-insert success (`dbOk`),
push the batch's hashes, truncate to the most recent `stackCapacity`
entries when over capacity, and suspend ingestion when the stack is at
capacity. A database error is caught before the stack is touched. -/
def addToStack (cfg : Config) (dbOk : Bool) (txs : List Tx) (s : SvcState) :
    SvcState :=
  if dbOk then
    let hashes := txs.map fun tx => tx.hash
    let st1 := s.pendingStack ++ hashes
    let st2 := if cfg.stackCapacity < st1.length then
        jsSliceLast cfg.stackCapacity st1
      else st1
    let enabled := if cfg.stackCapacity ≤ st2.length then false
      else s.fetchingEnabled
    { pendingStack := st2, fetchingEnabled := enabled }
  else s

/-- The records `addToStack` writes to the durable store (empty when the
batch insert failed). -/
def addToStackWrites (dbOk : Bool) (txs : List Tx) : List FormattedTx :=
  if dbOk then txs.map formatTx else []

/-- The `for (let i = 0; i < n; i++) { pendingStack.pop(); txs.push(...) }`
loop of `popTransactions`: pops `k` times from the end of the stack,
appending each popped hash to `txs`; a pop on an empty array yields
`undefined` and appends nothing. Returns (remaining stack, collected). -/
def popLoop : Nat → List String → List String → List String × List String
  | 0, stack, txs => (stack, txs)
  | Nat.succ k, stack, txs =>
    match stack.getLast? with
    | none => popLoop k stack txs
    | some x => popLoop k stack.dropLast (txs ++ [x])

/-- Embedding of `BlockchainService.popTransactions(count)`: pops
`min(count, stack.length)` hashes (most recent first) and re-enables
ingestion when the remaining length is below the resume threshold. -/
def popTransactions (cfg : Config) (count : Int) (s : SvcState) :
    List String × SvcState :=
  let n : Int := min count (s.pendingStack.length : Int)
  let r := popLoop n.toNat s.pendingStack []
  let enabled := if r.1.length < cfg.stackResumeThreshold then true
    else s.fetchingEnabled
  (r.2, { pendingStack := r.1, fetchingEnabled := enabled })

/-- The observable outcome of one `fetchLatestTransactions` tick: the new
state, whether any provider fetch was attempted, and the records written
to the durable store. -/
structure TickResult where
  state : SvcState
  fetched : Bool
  dbWrites : List FormattedTx
deriving DecidableEq

/-- Embedding of `BlockchainService.fetchLatestTransactions`: a no-op while the gate is
off; otherwise fetch the latest block (`env = none` models a fetch error,
caught and logged) and add its transactions when the block is non-empty. -/
def fetchLatestTransactions (cfg : Config) (env : Option (List Tx))
    (dbOk : Bool) (s : SvcState) : TickResult :=
  if s.fetchingEnabled then
    match env with
    | none => { state := s, fetched := true, dbWrites := [] }
    | some txs =>
      if 0 < txs.length then
        { state := addToStack cfg dbOk txs s
          fetched := true
          dbWrites := addToStackWrites dbOk txs }
      else { state := s, fetched := true, dbWrites := [] }
  else { state := s, fetched := false, dbWrites := [] }

/-- One mutation of the service state: an ingestion-loop append (a tick, or
a direct `addToStack` batch) or a legacy-accessor pop. -/
inductive Step (cfg : Config) : SvcState → SvcState → Prop
  | add (s : SvcState) (dbOk : Bool) (txs : List Tx) :
      Step cfg s (addToStack cfg dbOk txs s)
  | tick (s : SvcState) (env : Option (List Tx)) (dbOk : Bool) :
      Step cfg s (fetchLatestTransactions cfg env dbOk s).state
  | pop (s : SvcState) (count : Int) :
      Step cfg s (popTransactions cfg count s).2

/-- States reachable from the constructor state by ticks, appends and pops. -/
inductive Reachable (cfg : Config) : SvcState → Prop
  | init : Reachable cfg initState
  | step {s s' : SvcState} : Reachable cfg s → Step cfg s s' →
      Reachable cfg s'

/-! ## Provider pool and failover client -/

/-- A JS error object as classified by `executeWithRetry`. -/
structure JSError where
  message : String
  code : Option Int := none
  status : Option Int := none
deriving DecidableEq

/-- Substring search over character lists (JS `String.prototype.includes`):
the needle is a prefix of some suffix of the haystack. -/
def containsSub (needle : List Char) : List Char → Bool
  | [] => needle.isPrefixOf []
  | c :: t => needle.isPrefixOf (c :: t) || containsSub needle t

/-- JS `s.includes(sub)`. -/
def jsIncludes (s sub : String) : Bool :=
  containsSub sub.toList s.toList

/-- The whitespace class trimmed by JS `String.prototype.trim` (the common
ASCII members). -/
def isJsWhitespace (c : Char) : Bool :=
  c == ' ' || c == '\t' || c == '\n' || c == '\r'

/-- JS `s.trim()`: strip whitespace from both ends. -/
def jsTrim (s : String) : String :=
  String.mk
    (((s.toList.dropWhile isJsWhitespace).reverse.dropWhile isJsWhitespace).reverse)

/-- JS `String.prototype.toUpperCase` on one character (ASCII range). -/
def charToUpperJs (c : Char) : Char :=
  if 'a' ≤ c && c ≤ 'z' then Char.ofNat (c.toNat - 32) else c

/-- JS `String.prototype.toLowerCase` on one character (ASCII range). -/
def charToLowerJs (c : Char) : Char :=
  if 'A' ≤ c && c ≤ 'Z' then Char.ofNat (c.toNat + 32) else c

/-- JS `s.toUpperCase()`. -/
def jsToUpper (s : String) : String :=
  String.mk (s.toList.map charToUpperJs)

/-- JS `s.toLowerCase()`. -/
def jsToLower (s : String) : String :=
  String.mk (s.toList.map charToLowerJs)

/-- JS `s.startsWith(pre)`. -/
def jsStartsWith (s pre : String) : Bool :=
  pre.toList.isPrefixOf s.toList

/-- The rate-limit classification of `executeWithRetry`: the message
mentions "rate limit" or "429", or the error's code or status is 429. -/
def isRateLimitError (e : JSError) : Bool :=
  jsIncludes e.message "rate limit" || jsIncludes e.message "429"
    || e.code == some 429 || e.status == some 429

/-- The credential pool: the configured Infura API keys and the current
round-robin index. -/
structure ProviderPool where
  apiKeys : List String
  currentKeyIndex : Nat
deriving DecidableEq

/-- Embedding of `BlockchainService.rotateApiKey`: advance the index round-robin; a
no-op (reported by the returned flag) when at most one key exists. -/
def rotateApiKey (p : ProviderPool) : ProviderPool × Bool :=
  if p.apiKeys.length ≤ 1 then (p, false)
  else ({ p with currentKeyIndex := (p.currentKeyIndex + 1) % p.apiKeys.length },
        true)

/-- The pool after `k` rotations (the pool state at the start of the
`k`-th retry attempt of a run in which every attempt so far failed with a
rate-limit error). -/
def rotateIter (p : ProviderPool) : Nat → ProviderPool
  | 0 => p
  | k + 1 => rotateIter (rotateApiKey p).1 k

/-- What a wrapped provider call produces: the result (or propagated
error), the pool state afterwards, and how many provider calls were made. -/
structure RetryOutcome (V : Type) where
  result : Except JSError V
  pool : ProviderPool
  attempts : Nat

/-- The `for (attempt = 0; attempt < maxRetries; attempt++)` loop of
`executeWithRetry`, by remaining fuel: `fuel = maxRetries - attempt`, so
the source's retry condition `attempt < maxRetries - 1` is `fuel ≠ 0`
after consuming this iteration's unit. `call i` is the provider method
invoked while the pool's current index is `i`; fuel 0 is the fall-through
`throw lastError` after the loop. -/
def executeWithRetryAux {V : Type} (call : Nat → Except JSError V) :
    Nat → ProviderPool → Option JSError → RetryOutcome V
  | 0, pool, lastError =>
    { result := .error (lastError.getD { message := "" }), pool := pool
      attempts := 0 }
  | fuel + 1, pool, _ =>
    match call pool.currentKeyIndex with
    | .ok v => { result := .ok v, pool := pool, attempts := 1 }
    | .error e =>
      if isRateLimitError e && fuel != 0 then
        let r := executeWithRetryAux call fuel (rotateApiKey pool).1 (some e)
        { result := r.result, pool := r.pool, attempts := r.attempts + 1 }
      else { result := .error e, pool := pool, attempts := 1 }

/-- Embedding of `BlockchainService.executeWithRetry`: up to `apiKeys.length` total
attempts, rotating on rate-limit-class errors only. -/
def executeWithRetry {V : Type} (call : Nat → Except JSError V)
    (pool : ProviderPool) : RetryOutcome V :=
  executeWithRetryAux call pool.apiKeys.length pool none

/-- Embedding of `BlockchainService.getBalance`: wraps the retried provider call,
stringifying the balance on success. -/
def getBalance (call : Nat → Except JSError Int) (pool : ProviderPool) :
    Except JSError String × ProviderPool :=
  let r := executeWithRetry call pool
  match r.result with
  | .ok v => (.ok (toString v), r.pool)
  | .error e =>
    (.error { message := "Failed to fetch balance: " ++ e.message }, r.pool)

/-! ## Durable transaction store -/

/-- A row of the `transactions` table, with the columns bound by
`insertTransaction` (the two timestamp columns are storage defaults). -/
structure TxRow where
  hash : String
  block_number : Int
  from_address : Option String
  to_address : Option String
  value : String
  gas_price : String
  gas_limit : String
  nonce : Int
  dataField : String
deriving DecidableEq

/-- The parameter conversion in `TransactionDatabase.insertTransaction`
(JS truthiness defaults: empty string and zero fall back to "0"). -/
def makeRow (tx : FormattedTx) : TxRow :=
  { hash := tx.hash
    block_number := tx.blockNumber
    from_address := tx.fromAddr
    to_address := tx.toAddr
    value := if tx.value = "" then "0" else tx.value
    gas_price := if tx.gasPrice = "" then "0" else tx.gasPrice
    gas_limit := if tx.gasLimit = 0 then "0" else toString tx.gasLimit
    nonce := tx.nonce
    dataField := tx.dataField }

/-- Semantics of `INSERT OR REPLACE INTO transactions ...` with `hash` as the declared
primary key: any existing row with the same hash is replaced, all other
rows are untouched. -/
def insertTransaction (table : List TxRow) (tx : FormattedTx) : List TxRow :=
  (table.filter fun r => r.hash != tx.hash) ++ [makeRow tx]

/-- Embedding of `TransactionDatabase.insertTransactions`: one `insertTransaction` per
record of the batch. -/
def insertTransactions (table : List TxRow) (txs : List FormattedTx) :
    List TxRow :=
  txs.foldl insertTransaction table

/-- The number of rows whose `hash` column equals `h`. -/
def rowCountForHash (table : List TxRow) (h : String) : Nat :=
  (table.filter fun r => r.hash == h).length

/-! ## The /query gateway -/

/-- The JSON reply of the POST /query route. -/
inductive QueryResponse (Row : Type) where
  | validationError (msg : String)
  | results (rows : List Row)
deriving DecidableEq

/-- What one /query request does: the reply, the database afterwards, and
the SQL strings that actually reached the storage engine. -/
structure QueryOutcome (DB Row : Type) where
  response : QueryResponse Row
  db : DB
  engineCalls : List String

/-- The POST /query route: a missing body and any statement whose trimmed
upper-cased form does not start with SELECT are rejected before the SQL
reaches the storage engine. `engine` models `TransactionDatabase.query`,
which forwards the raw SQL to the engine and may change the database. -/
def queryRoute {DB Row : Type} (engine : DB → String → DB × List Row)
    (db : DB) (sql : String) : QueryOutcome DB Row :=
  if sql = "" then
    { response := .validationError "SQL query is required", db := db
      engineCalls := [] }
  else if !(jsStartsWith (jsToUpper (jsTrim sql)) "SELECT") then
    { response := .validationError "Only SELECT queries are allowed", db := db
      engineCalls := [] }
  else
    { response := .results (engine db sql).2, db := (engine db sql).1
      engineCalls := [sql] }

/-! ## The NL-to-SQL translator -/

/-- A hex digit as matched by the regex character class `[a-fA-F0-9]`. -/
def isHexDigitChar (c : Char) : Bool :=
  ('0' ≤ c && c ≤ '9') || ('a' ≤ c && c ≤ 'f') || ('A' ≤ c && c ≤ 'F')

/-- Leftmost match of the regex `0x[a-fA-F0-9]{40}` over a character list:
at each position try the literal match, otherwise advance one character. -/
def findAddressAux : List Char → Option (List Char)
  | [] => none
  | c :: rest =>
    if c == '0' && rest.take 1 == ['x']
        && ((rest.drop 1).take 40).length == 40
        && ((rest.drop 1).take 40).all isHexDigitChar then
      some (c :: 'x' :: (rest.drop 1).take 40)
    else findAddressAux rest

/-- Embedding of `nl.match(/0x[a-fA-F0-9]{40}/)`, first match or none. -/
def findAddress (nl : String) : Option String :=
  (findAddressAux nl.toList).map fun l => String.mk l

/-- Match of `([\d.]+)\s*eth` (case-insensitive) anchored at the start of
the list, returning the digit group. The character classes are disjoint,
so the greedy run needs no backtracking. -/
def matchEthAt (l : List Char) : Option (List Char) :=
  let digits := l.takeWhile fun c => c == '.' || ('0' ≤ c && c ≤ '9')
  if digits.isEmpty then none
  else
    let rest := (l.drop digits.length).dropWhile isJsWhitespace
    match rest with
    | a :: b :: c :: _ =>
      if (a == 'e' || a == 'E') && (b == 't' || b == 'T')
          && (c == 'h' || c == 'H') then some digits
      else none
    | _ => none

/-- Leftmost match of `([\d.]+)\s*eth/i`, as used by the `<number> eth`
rule. -/
def findEthAmount : List Char → Option (List Char)
  | [] => none
  | c :: rest =>
    match matchEthAt (c :: rest) with
    | some d => some d
    | none => findEthAmount rest

/-- The rule-based converter `convertNaturalLanguageToSQL`, rule for rule
in source order. `weiRender` abstracts the JS floating-point computation
`parseFloat(match) * 1000000000000000000` and its decimal rendering in the
`<number> eth` rule (binary floating point is not shallowly embeddable;
no claim depends on that branch). -/
def convertNaturalLanguageToSQL (weiRender : String → String) (nl : String) :
    String :=
  if jsIncludes nl "large" || jsIncludes nl "big" || jsIncludes nl "expensive" then
    "SELECT hash, from_address, to_address, CAST(value AS DOUBLE)/1000000000000000000.0 as eth_value FROM transactions WHERE CAST(value AS DOUBLE) > 100000000000000000 ORDER BY CAST(value AS DOUBLE) DESC LIMIT 10;"
  else if jsIncludes nl "recent" || jsIncludes nl "latest" || jsIncludes nl "last"
      || jsIncludes nl "past" then
    if jsIncludes nl "5" then
      "SELECT * FROM transactions ORDER BY created_at DESC LIMIT 5;"
    else if jsIncludes nl "10" || jsIncludes nl "ten" then
      "SELECT * FROM transactions ORDER BY created_at DESC LIMIT 10;"
    else if jsIncludes nl "hour" || jsIncludes nl "today" then
      "SELECT * FROM transactions WHERE created_at >= NOW() - INTERVAL 1 HOUR ORDER BY created_at DESC LIMIT 50;"
    else
      "SELECT * FROM transactions ORDER BY created_at DESC LIMIT 20;"
  else if jsIncludes nl "count" || jsIncludes nl "how many" then
    if jsIncludes nl "address" then
      "SELECT COUNT(DISTINCT from_address) as unique_senders, COUNT(DISTINCT to_address) as unique_receivers FROM transactions;"
    else
      "SELECT COUNT(*) as total_transactions FROM transactions;"
  else if jsIncludes nl "top" || jsIncludes nl "most active" then
    if jsIncludes nl "sender" then
      "SELECT from_address, COUNT(*) as tx_count FROM transactions GROUP BY from_address ORDER BY tx_count DESC LIMIT 10;"
    else if jsIncludes nl "receiver" then
      "SELECT to_address, COUNT(*) as tx_count FROM transactions GROUP BY to_address ORDER BY tx_count DESC LIMIT 10;"
    else
      "SELECT from_address, COUNT(*) as tx_count FROM transactions GROUP BY from_address ORDER BY tx_count DESC LIMIT 10;"
  else if jsIncludes nl "value" || jsIncludes nl "amount" || jsIncludes nl "highest"
      || jsIncludes nl "largest" then
    if jsIncludes nl "average" || jsIncludes nl "avg" then
      "SELECT AVG(CAST(value AS DOUBLE)) as avg_value_wei, AVG(CAST(value AS DOUBLE))/1000000000000000000.0 as avg_value_eth FROM transactions WHERE CAST(value AS DOUBLE) > 0;"
    else if jsIncludes nl "highest" || jsIncludes nl "max" || jsIncludes nl "largest" then
      "SELECT hash, from_address, to_address, CAST(value AS DOUBLE)/1000000000000000000.0 as eth_value FROM transactions WHERE CAST(value AS DOUBLE) > 0 ORDER BY CAST(value AS DOUBLE) DESC LIMIT 10;"
    else
      "SELECT hash, from_address, to_address, CAST(value AS DOUBLE)/1000000000000000000.0 as eth_value FROM transactions WHERE CAST(value AS DOUBLE) > 0 ORDER BY CAST(value AS DOUBLE) DESC LIMIT 10;"
  else if jsIncludes nl "today" || jsIncludes nl "daily" then
    "SELECT DATE(created_at) as date, COUNT(*) as daily_txs FROM transactions GROUP BY DATE(created_at) ORDER BY date DESC LIMIT 7;"
  else if jsIncludes nl "gas" then
    if jsIncludes nl "price" then
      "SELECT AVG(CAST(gas_price AS DOUBLE)) as avg_gas_price, MAX(CAST(gas_price AS DOUBLE)) as max_gas_price FROM transactions;"
    else
      "SELECT hash, gas_price, gas_limit FROM transactions ORDER BY CAST(gas_price AS DOUBLE) DESC LIMIT 10;"
  else
    match findAddress nl with
    | some address =>
      "SELECT * FROM transactions WHERE from_address = '" ++ address
        ++ "' OR to_address = '" ++ address
        ++ "' ORDER BY created_at DESC LIMIT 20;"
    | none =>
      if jsIncludes nl "show"
          && (jsIncludes nl "transaction" || jsIncludes nl "tx") then
        if jsIncludes nl "5" then
          "SELECT * FROM transactions ORDER BY created_at DESC LIMIT 5;"
        else if jsIncludes nl "10" then
          "SELECT * FROM transactions ORDER BY created_at DESC LIMIT 10;"
        else
          "SELECT * FROM transactions ORDER BY created_at DESC LIMIT 20;"
      else
        match findEthAmount nl.toList with
        | some m =>
          "SELECT hash, from_address, to_address, CAST(value AS DOUBLE)/1000000000000000000.0 as eth_value FROM transactions WHERE CAST(value AS DOUBLE) > "
            ++ weiRender (String.mk m)
            ++ " ORDER BY CAST(value AS DOUBLE) DESC LIMIT 10;"
        | none =>
          if jsIncludes nl "hour" then
            "SELECT * FROM transactions WHERE created_at >= NOW() - INTERVAL 1 HOUR ORDER BY created_at DESC LIMIT 50;"
          else
            "SELECT * FROM transactions ORDER BY created_at DESC LIMIT 10;"

/-- The outcome of the HTTP call to an LLM provider: a failed call
(network error, non-2xx reply, unsupported provider name), or a reply with
a possibly missing completion text. -/
inductive LlmResponse where
  | failure
  | ok (content : Option String)
deriving DecidableEq

/-- The shared validation tail of `convertWithGroq` / `convertWithOpenAI` /
`convertWithClaude` / `convertWithGemini`: trim the completion, reject a
missing or empty one, and reject a query that does not start with SELECT
after upper-casing and trimming. -/
def extractSql (resp : LlmResponse) : Except String String :=
  match resp with
  | .failure => .error "provider API error"
  | .ok none => .error "No SQL query generated"
  | .ok (some t) =>
    let sqlQuery := jsTrim t
    if sqlQuery = "" then .error "No SQL query generated"
    else if !(jsStartsWith (jsTrim (jsToUpper sqlQuery)) "SELECT") then
      .error "Generated query is not a SELECT statement"
    else .ok sqlQuery

/-- JS truthiness of an optional string (`undefined` and `""` are falsy). -/
def strTruthy : Option String → Bool
  | none => false
  | some s => !(s == "")

/-- The reply of POST /nl-to-sql: the SQL and the reported `method`. -/
structure NlOutcome where
  sqlQuery : String
  method : String
deriving DecidableEq

/-- The selection-and-fallback logic of the POST /nl-to-sql route. `resp`
is the outcome of the provider HTTP call the chosen path would make;
`usedProvider` starts as "rule-based" and is overwritten only after the
provider conversion succeeds. -/
def nlToSqlRoute (resp : LlmResponse) (provider : Option String)
    (apiKey : Option String) (groqApiKey : Option String) (nl : String)
    (weiRender : String → String) : NlOutcome :=
  if strTruthy provider && strTruthy apiKey then
    match extractSql resp with
    | .ok sql => { sqlQuery := sql, method := provider.getD "" }
    | .error _ =>
      { sqlQuery := convertNaturalLanguageToSQL weiRender (jsToLower nl)
        method := "rule-based" }
  else if strTruthy groqApiKey then
    match extractSql resp with
    | .ok sql => { sqlQuery := sql, method := "groq" }
    | .error _ =>
      { sqlQuery := convertNaturalLanguageToSQL weiRender (jsToLower nl)
        method := "rule-based" }
  else
    { sqlQuery := convertNaturalLanguageToSQL weiRender (jsToLower nl)
      method := "rule-based" }

/-! ## Helper lemmas about the embedded operations -/

theorem popLoop_spec (k : Nat) :
    ∀ (stack txs : List String), k ≤ stack.length →
      popLoop k stack txs =
        (stack.take (stack.length - k), txs ++ stack.reverse.take k) := by
  induction k with
  | zero => intro stack txs _; simp [popLoop]
  | succ k ih =>
    intro stack txs hk
    rcases stack.eq_nil_or_concat with rfl | ⟨ys, y, rfl⟩
    · simp at hk
    · rw [List.concat_eq_append] at *
      have hk' : k ≤ ys.length := by simp at hk; omega
      have h1 : popLoop (k + 1) (ys ++ [y]) txs = popLoop k ys (txs ++ [y]) := by
        simp [popLoop]
      rw [h1, ih ys (txs ++ [y]) hk']
      have h2 : (ys ++ [y]).take ((ys ++ [y]).length - (k + 1))
          = ys.take (ys.length - k) := by
        have hlen : (ys ++ [y]).length - (k + 1) = ys.length - k := by
          simp
        rw [hlen, List.take_append_of_le_length (by omega)]
      have h3 : (ys ++ [y]).reverse.take (k + 1) = y :: ys.reverse.take k := by
        simp
      rw [h2, h3]
      simp

theorem popTransactions_eq (cfg : Config) (count : Int) (s : SvcState) :
    popTransactions cfg count s =
      (s.pendingStack.reverse.take (min count (s.pendingStack.length : Int)).toNat,
       { pendingStack :=
           s.pendingStack.take
             (s.pendingStack.length - (min count (s.pendingStack.length : Int)).toNat)
         fetchingEnabled :=
           if (s.pendingStack.take
               (s.pendingStack.length
                 - (min count (s.pendingStack.length : Int)).toNat)).length
               < cfg.stackResumeThreshold then true
           else s.fetchingEnabled }) := by
  have hk : (min count (s.pendingStack.length : Int)).toNat ≤ s.pendingStack.length := by
    omega
  simp only [popTransactions]
  rw [popLoop_spec _ _ _ hk]
  simp

theorem jsSliceLast_length (k : Nat) (hk : 0 < k) (l : List α) (hl : k ≤ l.length) :
    (jsSliceLast k l).length = k := by
  unfold jsSliceLast
  rw [if_neg (Nat.pos_iff_ne_zero.mp hk)]
  simp
  omega

theorem addToStack_length_le (cfg : Config) (hcap : 0 < cfg.stackCapacity)
    (dbOk : Bool) (txs : List Tx) (s : SvcState)
    (hs : s.pendingStack.length ≤ cfg.stackCapacity) :
    (addToStack cfg dbOk txs s).pendingStack.length ≤ cfg.stackCapacity := by
  cases dbOk with
  | false => simpa [addToStack] using hs
  | true =>
    have h : (addToStack cfg true txs s).pendingStack
        = if cfg.stackCapacity < (s.pendingStack ++ txs.map fun tx => tx.hash).length
          then jsSliceLast cfg.stackCapacity (s.pendingStack ++ txs.map fun tx => tx.hash)
          else s.pendingStack ++ txs.map fun tx => tx.hash := rfl
    rw [h]
    split
    · next hlt => rw [jsSliceLast_length _ hcap _ (le_of_lt hlt)]
    · next hge => omega

theorem fetchLatest_length_le (cfg : Config) (hcap : 0 < cfg.stackCapacity)
    (env : Option (List Tx)) (dbOk : Bool) (s : SvcState)
    (hs : s.pendingStack.length ≤ cfg.stackCapacity) :
    (fetchLatestTransactions cfg env dbOk s).state.pendingStack.length
      ≤ cfg.stackCapacity := by
  unfold fetchLatestTransactions
  split
  · cases env with
    | none => exact hs
    | some txs =>
      simp only
      split
      · exact addToStack_length_le cfg hcap dbOk txs s hs
      · exact hs
  · exact hs

theorem addToStack_length_eq (cfg : Config) (hcap : 0 < cfg.stackCapacity)
    (txs : List Tx) (s : SvcState) :
    (addToStack cfg true txs s).pendingStack.length
      = min ((s.pendingStack ++ txs.map fun tx => tx.hash).length)
          cfg.stackCapacity := by
  have h : (addToStack cfg true txs s).pendingStack
      = if cfg.stackCapacity < (s.pendingStack ++ txs.map fun tx => tx.hash).length
        then jsSliceLast cfg.stackCapacity (s.pendingStack ++ txs.map fun tx => tx.hash)
        else s.pendingStack ++ txs.map fun tx => tx.hash := rfl
  rw [h]
  split
  · next hlt => rw [jsSliceLast_length _ hcap _ (le_of_lt hlt)]; omega
  · next hge => omega

theorem executeWithRetryAux_attempts_le {V : Type}
    (call : Nat → Except JSError V) :
    ∀ (fuel : Nat) (pool : ProviderPool) (last : Option JSError),
      (executeWithRetryAux call fuel pool last).attempts ≤ fuel := by
  intro fuel
  induction fuel with
  | zero => intro pool last; exact le_refl 0
  | succ f ih =>
    intro pool last
    unfold executeWithRetryAux
    cases call pool.currentKeyIndex with
    | ok v => exact Nat.succ_le_succ (Nat.zero_le f)
    | error e =>
      dsimp only
      split
      · dsimp only
        exact Nat.succ_le_succ (ih (rotateApiKey pool).1 (some e))
      · exact Nat.succ_le_succ (Nat.zero_le f)

theorem popTransactions_length_le (cfg : Config) (count : Int) (s : SvcState) :
    ((popTransactions cfg count s).2).pendingStack.length
      ≤ s.pendingStack.length := by
  rw [popTransactions_eq]
  simp

theorem popTransactions_resume (cfg : Config) (count : Int) (s : SvcState)
    (h : ((popTransactions cfg count s).2).pendingStack.length
          < cfg.stackResumeThreshold) :
    ((popTransactions cfg count s).2).fetchingEnabled = true := by
  rw [popTransactions_eq] at h ⊢
  dsimp only at h ⊢
  rw [if_pos h]

theorem fetchLatest_suspended_noop (cfg : Config) (env : Option (List Tx))
    (dbOk : Bool) (s : SvcState) (h : s.fetchingEnabled = false) :
    fetchLatestTransactions cfg env dbOk s
      = { state := s, fetched := false, dbWrites := [] } := by
  simp [fetchLatestTransactions, h]

theorem addToStack_susp_ge (cfg : Config) (hv : cfg.Valid) (dbOk : Bool)
    (txs : List Tx) (s : SvcState)
    (ih : s.fetchingEnabled = false →
      cfg.stackResumeThreshold ≤ s.pendingStack.length) :
    (addToStack cfg dbOk txs s).fetchingEnabled = false →
      cfg.stackResumeThreshold ≤ (addToStack cfg dbOk txs s).pendingStack.length := by
  cases dbOk with
  | false => simpa [addToStack] using ih
  | true =>
    have hcap : 0 < cfg.stackCapacity := lt_of_le_of_lt (Nat.zero_le _) hv
    have hmin := addToStack_length_eq cfg hcap txs s
    have henab : (addToStack cfg true txs s).fetchingEnabled
        = if cfg.stackCapacity ≤ (addToStack cfg true txs s).pendingStack.length
          then false else s.fetchingEnabled := rfl
    intro hdis
    rw [henab] at hdis
    by_cases hle : cfg.stackCapacity ≤ (addToStack cfg true txs s).pendingStack.length
    · have hv' : cfg.stackResumeThreshold < cfg.stackCapacity := hv
      omega
    · rw [if_neg hle] at hdis
      have hs' := ih hdis
      have hL : (s.pendingStack ++ txs.map fun tx => tx.hash).length
          = s.pendingStack.length + (txs.map fun tx => tx.hash).length := by simp
      omega

theorem fetchLatest_susp_ge (cfg : Config) (hv : cfg.Valid)
    (env : Option (List Tx)) (dbOk : Bool) (s : SvcState)
    (ih : s.fetchingEnabled = false →
      cfg.stackResumeThreshold ≤ s.pendingStack.length) :
    (fetchLatestTransactions cfg env dbOk s).state.fetchingEnabled = false →
      cfg.stackResumeThreshold
        ≤ (fetchLatestTransactions cfg env dbOk s).state.pendingStack.length := by
  unfold fetchLatestTransactions
  split
  · cases env with
    | none => exact ih
    | some txs =>
      simp only
      split
      · exact addToStack_susp_ge cfg hv dbOk txs s ih
      · exact ih
  · exact ih

theorem popTransactions_susp_ge (cfg : Config) (count : Int) (s : SvcState) :
    (popTransactions cfg count s).2.fetchingEnabled = false →
      cfg.stackResumeThreshold
        ≤ (popTransactions cfg count s).2.pendingStack.length := by
  rw [popTransactions_eq]
  dsimp only
  intro h
  split at h
  · exact absurd h (by simp)
  · next hge => omega

theorem rotateIter_apiKeys (k : Nat) :
    ∀ p : ProviderPool, (rotateIter p k).apiKeys = p.apiKeys := by
  induction k with
  | zero => intro p; rfl
  | succ k ih =>
    intro p
    have h : rotateIter p (k + 1) = rotateIter (rotateApiKey p).1 k := rfl
    rw [h, ih]
    unfold rotateApiKey
    split <;> rfl

theorem rotateIter_of_singleton (k : Nat) :
    ∀ p : ProviderPool, p.apiKeys.length ≤ 1 → rotateIter p k = p := by
  induction k with
  | zero => intro p _; rfl
  | succ k ih =>
    intro p hp
    have h : rotateIter p (k + 1) = rotateIter (rotateApiKey p).1 k := rfl
    have hrot : (rotateApiKey p).1 = p := by
      unfold rotateApiKey
      rw [if_pos hp]
    rw [h, hrot, ih p hp]

theorem rotateIter_index (k : Nat) :
    ∀ p : ProviderPool, 2 ≤ p.apiKeys.length →
      p.currentKeyIndex < p.apiKeys.length →
      (rotateIter p k).currentKeyIndex
        = (p.currentKeyIndex + k) % p.apiKeys.length := by
  induction k with
  | zero =>
    intro p h2 hidx
    exact (Nat.mod_eq_of_lt hidx).symm
  | succ k ih =>
    intro p h2 hidx
    have hrot : (rotateApiKey p).1
        = { p with currentKeyIndex :=
              (p.currentKeyIndex + 1) % p.apiKeys.length } := by
      unfold rotateApiKey
      rw [if_neg (by omega)]
    have h : rotateIter p (k + 1) = rotateIter (rotateApiKey p).1 k := rfl
    rw [h, hrot]
    rw [ih { apiKeys := p.apiKeys
             currentKeyIndex := (p.currentKeyIndex + 1) % p.apiKeys.length }
      h2
      (Nat.mod_lt (p.currentKeyIndex + 1)
        (show 0 < p.apiKeys.length by omega))]
    rw [Nat.mod_add_mod]
    congr 1
    omega

theorem executeWithRetryAux_lastError {V : Type}
    (call : Nat → Except JSError V) (errs : Nat → JSError)
    (hall : ∀ i, call i = Except.error (errs i))
    (hrl : ∀ i, isRateLimitError (errs i) = true) :
    ∀ (fuel : Nat) (pool : ProviderPool) (last : Option JSError), 0 < fuel →
      executeWithRetryAux call fuel pool last
        = { result :=
              Except.error (errs ((rotateIter pool (fuel - 1)).currentKeyIndex))
            pool := rotateIter pool (fuel - 1)
            attempts := fuel } := by
  intro fuel
  induction fuel with
  | zero => intro pool last h; omega
  | succ f ih =>
    intro pool last _
    unfold executeWithRetryAux
    rw [hall]
    by_cases hf : f = 0
    · subst hf
      simp [hrl, rotateIter]
    · have h0 : 0 < f := Nat.pos_of_ne_zero hf
      have hcond : (isRateLimitError (errs pool.currentKeyIndex) && (f != 0))
          = true := by
        simp [hrl, hf]
      dsimp only
      rw [hcond, if_pos rfl]
      rw [ih (rotateApiKey pool).1 (some (errs pool.currentKeyIndex)) h0]
      have hiter : rotateIter (rotateApiKey pool).1 (f - 1)
          = rotateIter pool f := by
        obtain ⟨g, rfl⟩ : ∃ g, f = g + 1 := ⟨f - 1, by omega⟩
        rfl
      have hf1 : f + 1 - 1 = f := by omega
      rw [hiter, hf1]

theorem rowCount_filter_ne (table : List TxRow) (x h : String) :
    rowCountForHash (table.filter fun r => r.hash != x) h
      = if h = x then 0 else rowCountForHash table h := by
  unfold rowCountForHash
  rw [List.filter_filter]
  by_cases hh : h = x
  · subst hh
    rw [List.filter_congr (q := fun _ => false) ?_]
    · simp
    · intro r _
      by_cases hr : r.hash = h <;> simp [hr]
  · rw [List.filter_congr (q := fun r => r.hash == h) ?_]
    · simp [hh]
    · intro r _
      by_cases hr : r.hash = h <;> simp [hr, hh]

theorem rowCount_insertTransaction (table : List TxRow) (tx : FormattedTx)
    (h : String) :
    rowCountForHash (insertTransaction table tx) h
      = if h = tx.hash then 1 else rowCountForHash table h := by
  have happ : rowCountForHash (insertTransaction table tx) h
      = rowCountForHash (table.filter fun r => r.hash != tx.hash) h
          + rowCountForHash [makeRow tx] h := by
    unfold insertTransaction rowCountForHash
    rw [List.filter_append, List.length_append]
  rw [happ, rowCount_filter_ne]
  by_cases hh : h = tx.hash
  · simp [hh, rowCountForHash, makeRow]
  · have hz : rowCountForHash [makeRow tx] h = 0 := by
      simp [rowCountForHash, makeRow]
      exact fun hq => hh hq.symm
    rw [if_neg hh, if_neg hh, hz, Nat.add_zero]

theorem rowCount_insertTransactions_le (txs : List FormattedTx) :
    ∀ (table : List TxRow) (h : String), rowCountForHash table h ≤ 1 →
      rowCountForHash (insertTransactions table txs) h ≤ 1 := by
  induction txs with
  | nil => intro table h hh; simpa [insertTransactions] using hh
  | cons tx rest ih =>
    intro table h hh
    have hstep : insertTransactions table (tx :: rest)
        = insertTransactions (insertTransaction table tx) rest := rfl
    rw [hstep]
    apply ih
    rw [rowCount_insertTransaction]
    split
    · exact le_refl 1
    · exact hh

/-! ## The claims -/

/-- C1: starting from the empty stack, after every sequence of
ingestion-loop appends (`addToStack` batches, including those performed by
ticks) and legacy pops (`popTransactions`), the pending stack length
satisfies `0 ≤ length ≤ stackCapacity`. -/
theorem pendingStack_length_bounded (cfg : Config)
    (hcap : 0 < cfg.stackCapacity) {s : SvcState} (hs : Reachable cfg s) :
    0 ≤ s.pendingStack.length ∧ s.pendingStack.length ≤ cfg.stackCapacity := by
  refine ⟨Nat.zero_le _, ?_⟩
  induction hs with
  | init => simp [initState]
  | step hr hstep ih =>
    cases hstep with
    | add dbOk txs => exact addToStack_length_le cfg hcap dbOk txs _ ih
    | tick env dbOk => exact fetchLatest_length_le cfg hcap env dbOk _ ih
    | pop count => exact le_trans (popTransactions_length_le cfg count _) ih

/-- Witness for C1 at the concrete configuration capacity 3 / threshold 1,
for the state reached by one successful two-transaction append. -/
theorem pendingStack_length_bounded_witness :
    0 < (⟨3, 1⟩ : Config).stackCapacity ∧
      (0 ≤ (addToStack ⟨3, 1⟩ true [{ hash := "a" }, { hash := "b" }]
              initState).pendingStack.length
        ∧ (addToStack ⟨3, 1⟩ true [{ hash := "a" }, { hash := "b" }]
              initState).pendingStack.length ≤ (⟨3, 1⟩ : Config).stackCapacity) :=
  ⟨by decide,
   pendingStack_length_bounded ⟨3, 1⟩ (by decide)
     (Reachable.step Reachable.init
       (Step.add initState true [{ hash := "a" }, { hash := "b" }]))⟩

/-- C2: a pop whose resulting stack length is strictly below the resume
threshold leaves the gate ENABLED, so the next tick fetches; and while the
gate is SUSPENDED a firing tick performs no fetch, no store write and no
stack mutation — in particular no tick alone turns SUSPENDED back into
ENABLED. -/
theorem resume_after_pop_and_suspended_tick_noop (cfg : Config) :
    (∀ (count : Int) (s : SvcState) (env : Option (List Tx)) (dbOk : Bool),
        ((popTransactions cfg count s).2).pendingStack.length
            < cfg.stackResumeThreshold →
          ((popTransactions cfg count s).2).fetchingEnabled = true
            ∧ (fetchLatestTransactions cfg env dbOk
                ((popTransactions cfg count s).2)).fetched = true)
    ∧ (∀ (env : Option (List Tx)) (dbOk : Bool) (s : SvcState),
        s.fetchingEnabled = false →
          fetchLatestTransactions cfg env dbOk s
            = { state := s, fetched := false, dbWrites := [] }) := by
  constructor
  · intro count s env dbOk h
    have he := popTransactions_resume cfg count s h
    refine ⟨he, ?_⟩
    cases env with
    | none => simp [fetchLatestTransactions, he]
    | some txs =>
      simp only [fetchLatestTransactions, he, if_true]
      split <;> rfl
  · intro env dbOk s h
    exact fetchLatest_suspended_noop cfg env dbOk s h

/-- Witness for C2: popping 2 hashes off a suspended two-element stack with
threshold 2 re-enables ingestion and the next tick fetches; a tick on a
suspended three-element stack is a no-op. -/
theorem resume_after_pop_and_suspended_tick_noop_witness :
    (((popTransactions ⟨3, 2⟩ 2 ⟨["a", "b"], false⟩).2).pendingStack.length < 2
      ∧ (((popTransactions ⟨3, 2⟩ 2 ⟨["a", "b"], false⟩).2).fetchingEnabled = true
          ∧ (fetchLatestTransactions ⟨3, 2⟩ (some [{ hash := "c" }]) true
              ((popTransactions ⟨3, 2⟩ 2 ⟨["a", "b"], false⟩).2)).fetched = true))
    ∧ ((⟨["a", "b", "c"], false⟩ : SvcState).fetchingEnabled = false
        ∧ fetchLatestTransactions ⟨3, 2⟩ none true ⟨["a", "b", "c"], false⟩
            = { state := ⟨["a", "b", "c"], false⟩, fetched := false,
                dbWrites := [] }) :=
  ⟨⟨by decide,
    (resume_after_pop_and_suspended_tick_noop ⟨3, 2⟩).1 2 ⟨["a", "b"], false⟩
      (some [{ hash := "c" }]) true (by decide)⟩,
   ⟨rfl,
    (resume_after_pop_and_suspended_tick_noop ⟨3, 2⟩).2 none true
      ⟨["a", "b", "c"], false⟩ rfl⟩⟩

/-- C3: `popTransactions` removes and returns exactly `min(n, length)`
entries for `n ≥ 0`, in strict LIFO order (the most recently appended hash
first), never returns more than the pre-call length, and yields an empty
result for `n ≤ 0`. -/
theorem popTransactions_lifo_spec (cfg : Config) (count : Int) (s : SvcState) :
    (0 ≤ count →
        (popTransactions cfg count s).1.length
          = min count.toNat s.pendingStack.length)
    ∧ (popTransactions cfg count s).1
        = s.pendingStack.reverse.take (popTransactions cfg count s).1.length
    ∧ (popTransactions cfg count s).1.length ≤ s.pendingStack.length
    ∧ (popTransactions cfg count s).2.pendingStack
        ++ (popTransactions cfg count s).1.reverse = s.pendingStack
    ∧ (count ≤ 0 → (popTransactions cfg count s).1 = []) := by
  rw [popTransactions_eq]
  dsimp only
  have hlen : (s.pendingStack.reverse.take
      (min count (s.pendingStack.length : Int)).toNat).length
        = (min count (s.pendingStack.length : Int)).toNat := by
    simp
  refine ⟨?_, ?_, ?_, ?_, ?_⟩
  · intro h0
    rw [hlen]
    omega
  · rw [hlen]
  · rw [hlen]
    omega
  · rw [List.take_reverse, List.reverse_reverse, List.take_append_drop]
  · intro h0
    have hz : (min count (s.pendingStack.length : Int)).toNat = 0 := by omega
    rw [hz, List.take_zero]

/-- Witness for C3 at count 2 over the stack [a, b, c] (top = c): the claim
instantiated at a nonnegative and at a nonpositive count. -/
theorem popTransactions_lifo_spec_witness :
    ((0 : Int) ≤ 2 →
        (popTransactions ⟨3, 1⟩ 2 ⟨["a", "b", "c"], true⟩).1.length
          = min (2 : Int).toNat 3)
    ∧ ((-1 : Int) ≤ 0 → (popTransactions ⟨3, 1⟩ (-1) ⟨["a", "b", "c"], true⟩).1 = []) :=
  ⟨fun _ => (popTransactions_lifo_spec ⟨3, 1⟩ 2 ⟨["a", "b", "c"], true⟩).1 (by decide),
   fun _ => (popTransactions_lifo_spec ⟨3, 1⟩ (-1) ⟨["a", "b", "c"], true⟩).2.2.2.2 (by decide)⟩

/-- C4: a successful `addToStack` leaves the pending stack equal to the last
`stackCapacity` elements of the old contents followed by the batch's hashes:
a suffix of `S ++ H` (truncation only from the head), of length
`min(|S| + |H|, capacity)`. -/
theorem addToStack_drop_oldest (cfg : Config) (hcap : 0 < cfg.stackCapacity)
    (txs : List Tx) (s : SvcState) :
    (addToStack cfg true txs s).pendingStack
        = (s.pendingStack ++ txs.map fun tx => tx.hash).drop
            ((s.pendingStack ++ txs.map fun tx => tx.hash).length
              - cfg.stackCapacity)
      ∧ (addToStack cfg true txs s).pendingStack
          <:+ (s.pendingStack ++ txs.map fun tx => tx.hash)
      ∧ (addToStack cfg true txs s).pendingStack.length
          = min ((s.pendingStack ++ txs.map fun tx => tx.hash).length)
              cfg.stackCapacity := by
  have h : (addToStack cfg true txs s).pendingStack
      = if cfg.stackCapacity < (s.pendingStack ++ txs.map fun tx => tx.hash).length
        then jsSliceLast cfg.stackCapacity (s.pendingStack ++ txs.map fun tx => tx.hash)
        else s.pendingStack ++ txs.map fun tx => tx.hash := rfl
  rw [h]
  refine ⟨?_, ?_, ?_⟩
  · split
    · next hlt =>
      simp [jsSliceLast, Nat.pos_iff_ne_zero.mp hcap]
    · next hge =>
      have hz : (s.pendingStack ++ txs.map fun tx => tx.hash).length
          - cfg.stackCapacity = 0 := by omega
      rw [hz, List.drop_zero]
  · split
    · next hlt =>
      simp only [jsSliceLast, if_neg (Nat.pos_iff_ne_zero.mp hcap)]
      exact List.drop_suffix _ _
    · exact List.suffix_refl _
  · rw [← h]
    exact addToStack_length_eq cfg hcap txs s

/-- Witness for C4 at capacity 2: appending three hashes to the empty stack
keeps the last two. -/
theorem addToStack_drop_oldest_witness :
    0 < (⟨2, 1⟩ : Config).stackCapacity ∧
      (addToStack ⟨2, 1⟩ true
          [{ hash := "a" }, { hash := "b" }, { hash := "c" }] initState).pendingStack
        = ((initState.pendingStack
              ++ ([{ hash := "a" }, { hash := "b" }, { hash := "c" }] : List Tx).map
                  fun tx => tx.hash).drop
            ((initState.pendingStack
                ++ ([{ hash := "a" }, { hash := "b" }, { hash := "c" }] : List Tx).map
                    fun tx => tx.hash).length - (⟨2, 1⟩ : Config).stackCapacity)) :=
  ⟨by decide,
   (addToStack_drop_oldest ⟨2, 1⟩ (by decide)
     [{ hash := "a" }, { hash := "b" }, { hash := "c" }] initState).1⟩

/-- C10: under the validated configuration (capacity strictly above the
resume threshold), every reachable state that is SUSPENDED holds at least
`stackResumeThreshold` pending hashes: the system is never stuck SUSPENDED
with an already-drained stack. -/
theorem suspended_implies_stack_ge_threshold (cfg : Config) (hv : cfg.Valid)
    {s : SvcState} (hs : Reachable cfg s)
    (hsusp : s.fetchingEnabled = false) :
    cfg.stackResumeThreshold ≤ s.pendingStack.length := by
  revert hsusp
  induction hs with
  | init => intro h; simp [initState] at h
  | step hr hstep ih =>
    cases hstep with
    | add dbOk txs => exact addToStack_susp_ge cfg hv dbOk txs _ ih
    | tick env dbOk => exact fetchLatest_susp_ge cfg hv env dbOk _ ih
    | pop count => exact popTransactions_susp_ge cfg count _

/-- C5: a rate-limit-class error rotates to the next credential and
retries, up to one attempt per credential; a non-rate-limit error
propagates immediately with no rotation and a single attempt; when every
credential `i` fails with its own rate-limit error `errs i`, the run makes
exactly `apiKeys.length` attempts, ends at the round-robin index
`(start + length - 1) % length` — the credential of the LAST attempt — and
propagates exactly that credential's error (not the first one's); the
attempt count never exceeds `apiKeys.length`; and with 3 credentials and
rate-limit errors on the first two attempts, `getBalance` succeeds using
the third credential and the pool's index ends at 2. -/
theorem executeWithRetry_failover :
    (∀ (V : Type) (call : Nat → Except JSError V) (pool : ProviderPool)
        (e : JSError),
        call pool.currentKeyIndex = Except.error e →
          isRateLimitError e = false → 0 < pool.apiKeys.length →
          executeWithRetry call pool
            = { result := Except.error e, pool := pool, attempts := 1 })
    ∧ (∀ (V : Type) (call : Nat → Except JSError V) (pool : ProviderPool)
        (errs : Nat → JSError),
        (∀ i, call i = Except.error (errs i)) →
          (∀ i, isRateLimitError (errs i) = true) →
          pool.currentKeyIndex < pool.apiKeys.length →
          (executeWithRetry call pool).result
              = Except.error (errs
                  ((pool.currentKeyIndex + (pool.apiKeys.length - 1))
                    % pool.apiKeys.length))
            ∧ (executeWithRetry call pool).pool.apiKeys = pool.apiKeys
            ∧ (executeWithRetry call pool).pool.currentKeyIndex
                = (pool.currentKeyIndex + (pool.apiKeys.length - 1))
                    % pool.apiKeys.length
            ∧ (executeWithRetry call pool).attempts = pool.apiKeys.length)
    ∧ (∀ (V : Type) (call : Nat → Except JSError V) (pool : ProviderPool),
        (executeWithRetry call pool).attempts ≤ pool.apiKeys.length)
    ∧ getBalance
        (fun i => if i < 2 then Except.error { message := "429 rate limit" }
          else Except.ok 42)
        ⟨["k0", "k1", "k2"], 0⟩
        = (Except.ok "42", ⟨["k0", "k1", "k2"], 2⟩) := by
  refine ⟨?_, ?_, ?_, ?_⟩
  · intro V call pool e hcall hrl hne
    unfold executeWithRetry
    obtain ⟨n, hn⟩ : ∃ n, pool.apiKeys.length = n + 1 :=
      ⟨pool.apiKeys.length - 1, by omega⟩
    rw [hn]
    unfold executeWithRetryAux
    rw [hcall]
    dsimp only
    rw [if_neg (by simp [hrl])]
  · intro V call pool errs hall hrl hidx
    have hL : 0 < pool.apiKeys.length := by omega
    have hrun := executeWithRetryAux_lastError call errs hall hrl
      pool.apiKeys.length pool none hL
    unfold executeWithRetry
    rw [hrun]
    by_cases h2 : 2 ≤ pool.apiKeys.length
    · refine ⟨?_, ?_, ?_, rfl⟩
      · rw [rotateIter_index _ _ h2 hidx]
      · rw [rotateIter_apiKeys]
      · rw [rotateIter_index _ _ h2 hidx]
    · have h1 : pool.apiKeys.length = 1 := by omega
      have hidx0 : pool.currentKeyIndex = 0 := by omega
      have hsing := rotateIter_of_singleton (pool.apiKeys.length - 1) pool
        (by omega)
      rw [hsing]
      refine ⟨?_, rfl, ?_, rfl⟩
      · rw [hidx0, h1]
      · rw [hidx0, h1]
  · intro V call pool
    exact executeWithRetryAux_attempts_le call _ pool none
  · rfl

/-- Witness for C5: a non-rate-limit error propagates at once with one
attempt; with two credentials that fail with two DIFFERENT rate-limit
errors (distinguished by their `code` field), the run exhausts both keys
and propagates the second credential's error, not the first's. -/
theorem executeWithRetry_failover_witness :
    (executeWithRetry
        (fun _ : Nat => (Except.error { message := "boom" } : Except JSError Int))
        ⟨["k0", "k1"], 0⟩
      = { result := Except.error { message := "boom" },
          pool := ⟨["k0", "k1"], 0⟩, attempts := 1 })
    ∧ ((executeWithRetry
          (fun i : Nat =>
            (Except.error { message := "rate limit", code := some (i : Int) }
              : Except JSError Int))
          ⟨["k0", "k1"], 0⟩).result
        = Except.error { message := "rate limit", code := some 1 }
        ∧ (executeWithRetry
            (fun i : Nat =>
              (Except.error { message := "rate limit", code := some (i : Int) }
                : Except JSError Int))
            ⟨["k0", "k1"], 0⟩).pool.currentKeyIndex = 1
        ∧ (executeWithRetry
            (fun i : Nat =>
              (Except.error { message := "rate limit", code := some (i : Int) }
                : Except JSError Int))
            ⟨["k0", "k1"], 0⟩).attempts = 2) :=
  ⟨executeWithRetry_failover.1 Int _ _ _ rfl (by decide) (by decide),
   (executeWithRetry_failover.2.1 Int
      (fun i : Nat =>
        (Except.error { message := "rate limit", code := some (i : Int) }
          : Except JSError Int))
      ⟨["k0", "k1"], 0⟩
      (fun i => { message := "rate limit", code := some (i : Int) })
      (fun _ => rfl) (fun _ => rfl) (by decide)).1,
   (executeWithRetry_failover.2.1 Int
      (fun i : Nat =>
        (Except.error { message := "rate limit", code := some (i : Int) }
          : Except JSError Int))
      ⟨["k0", "k1"], 0⟩
      (fun i => { message := "rate limit", code := some (i : Int) })
      (fun _ => rfl) (fun _ => rfl) (by decide)).2.2.1,
   (executeWithRetry_failover.2.1 Int
      (fun i : Nat =>
        (Except.error { message := "rate limit", code := some (i : Int) }
          : Except JSError Int))
      ⟨["k0", "k1"], 0⟩
      (fun i => { message := "rate limit", code := some (i : Int) })
      (fun _ => rfl) (fun _ => rfl) (by decide)).2.2.2⟩

/-- C6: any SQL whose trimmed, upper-cased form does not begin with SELECT
is rejected by the /query gateway with a validation error, the database is
untouched and the engine is never invoked — for "DROP TABLE transactions"
in particular — and any query issued afterwards behaves exactly as against
the original database. -/
theorem queryRoute_rejects_nonSelect :
    (∀ (DB Row : Type) (engine : DB → String → DB × List Row) (db : DB)
        (sql : String),
        jsStartsWith (jsToUpper (jsTrim sql)) "SELECT" = false →
          (∃ msg, (queryRoute engine db sql).response
              = QueryResponse.validationError msg)
            ∧ (queryRoute engine db sql).db = db
            ∧ (queryRoute engine db sql).engineCalls = [])
    ∧ (jsStartsWith (jsToUpper (jsTrim "DROP TABLE transactions")) "SELECT"
        = false)
    ∧ (∀ (DB Row : Type) (engine : DB → String → DB × List Row) (db : DB)
        (q : String),
        queryRoute engine
            (queryRoute engine db "DROP TABLE transactions").db q
          = queryRoute engine db q) := by
  refine ⟨?_, by decide, ?_⟩
  · intro DB Row engine db sql h
    by_cases hsql : sql = ""
    · subst hsql
      exact ⟨⟨"SQL query is required", rfl⟩, rfl, rfl⟩
    · have heq : queryRoute engine db sql
          = { response := .validationError "Only SELECT queries are allowed",
              db := db, engineCalls := [] } := by
        unfold queryRoute
        rw [if_neg hsql, h]
        rfl
      rw [heq]
      exact ⟨⟨"Only SELECT queries are allowed", rfl⟩, rfl, rfl⟩
  · intro DB Row engine db q
    have hdb : (queryRoute engine db "DROP TABLE transactions").db = db := rfl
    rw [hdb]

/-- Witness for C6: "DELETE FROM transactions" is rejected and leaves the
database unchanged, under a demonstration engine over a list database. -/
theorem queryRoute_rejects_nonSelect_witness :
    (jsStartsWith (jsToUpper (jsTrim "DELETE FROM transactions")) "SELECT"
        = false)
    ∧ (∃ msg, (queryRoute (fun (db : List Nat) (_ : String) => (db, db))
          [1, 2] "DELETE FROM transactions").response
            = QueryResponse.validationError msg)
    ∧ (queryRoute (fun (db : List Nat) (_ : String) => (db, db))
        [1, 2] "DELETE FROM transactions").db = [1, 2] :=
  ⟨by decide,
   (queryRoute_rejects_nonSelect.1 (List Nat) Nat _ [1, 2] _ (by decide)).1,
   (queryRoute_rejects_nonSelect.1 (List Nat) Nat _ [1, 2] _ (by decide)).2.1⟩

/-- C7: the store upserts by the natural key `hash`: after inserting a
record, that hash's row count is exactly 1 whatever it was before (replace,
never duplicate), other hashes are unaffected, and after any batch of
upserts into the empty store every hash has at most one row. -/
theorem upsert_no_duplicates :
    (∀ (table : List TxRow) (tx : FormattedTx) (h : String),
        rowCountForHash (insertTransaction table tx) h
          = if h = tx.hash then 1 else rowCountForHash table h)
    ∧ (∀ (txs : List FormattedTx) (h : String),
        rowCountForHash (insertTransactions [] txs) h ≤ 1) :=
  ⟨rowCount_insertTransaction,
   fun txs h =>
     rowCount_insertTransactions_le txs [] h (by simp [rowCountForHash])⟩

/-- C8: whenever a provider path is attempted (the hinted provider with a
resolved key, or the server-side Groq key) and the provider call fails in
any way — including returning text that does not start with SELECT after
trimming — the route answers with the rule-based converter's output and
`method = "rule-based"`; the provider's name (or "groq") is reported only
when the provider's SQL passes validation, and then the provider's SQL is
returned. -/
theorem nlToSql_fallback_spec :
    (∀ (t : String),
        jsStartsWith (jsTrim (jsToUpper (jsTrim t))) "SELECT" = false →
          ∃ msg, extractSql (LlmResponse.ok (some t)) = Except.error msg)
    ∧ (∀ (resp : LlmResponse) (provider apiKey groqApiKey : Option String)
        (nl : String) (weiRender : String → String) (msg : String),
        (strTruthy provider && strTruthy apiKey) = true →
          extractSql resp = Except.error msg →
          nlToSqlRoute resp provider apiKey groqApiKey nl weiRender
            = { sqlQuery := convertNaturalLanguageToSQL weiRender (jsToLower nl)
                method := "rule-based" })
    ∧ (∀ (resp : LlmResponse) (provider apiKey groqApiKey : Option String)
        (nl : String) (weiRender : String → String) (msg : String),
        (strTruthy provider && strTruthy apiKey) = false →
          strTruthy groqApiKey = true →
          extractSql resp = Except.error msg →
          nlToSqlRoute resp provider apiKey groqApiKey nl weiRender
            = { sqlQuery := convertNaturalLanguageToSQL weiRender (jsToLower nl)
                method := "rule-based" })
    ∧ (∀ (resp : LlmResponse) (provider apiKey groqApiKey : Option String)
        (nl : String) (weiRender : String → String) (sql : String),
        (strTruthy provider && strTruthy apiKey) = true →
          extractSql resp = Except.ok sql →
          nlToSqlRoute resp provider apiKey groqApiKey nl weiRender
            = { sqlQuery := sql, method := provider.getD "" })
    ∧ (∀ (resp : LlmResponse) (provider apiKey groqApiKey : Option String)
        (nl : String) (weiRender : String → String) (sql : String),
        (strTruthy provider && strTruthy apiKey) = false →
          strTruthy groqApiKey = true →
          extractSql resp = Except.ok sql →
          nlToSqlRoute resp provider apiKey groqApiKey nl weiRender
            = { sqlQuery := sql, method := "groq" }) := by
  refine ⟨?_, ?_, ?_, ?_, ?_⟩
  · intro t h
    have heq : extractSql (LlmResponse.ok (some t))
        = if jsTrim t = "" then Except.error "No SQL query generated"
          else if !(jsStartsWith (jsTrim (jsToUpper (jsTrim t))) "SELECT") then
            Except.error "Generated query is not a SELECT statement"
          else Except.ok (jsTrim t) := rfl
    rw [heq]
    by_cases he : jsTrim t = ""
    · rw [if_pos he]; exact ⟨_, rfl⟩
    · rw [if_neg he, h]; exact ⟨_, rfl⟩
  · intro resp provider apiKey groqApiKey nl weiRender msg hcond herr
    unfold nlToSqlRoute
    rw [hcond, if_pos rfl, herr]
  · intro resp provider apiKey groqApiKey nl weiRender msg hcond hg herr
    unfold nlToSqlRoute
    rw [hcond, if_neg Bool.false_ne_true, hg, if_pos rfl, herr]
  · intro resp provider apiKey groqApiKey nl weiRender sql hcond hok
    unfold nlToSqlRoute
    rw [hcond, if_pos rfl, hok]
  · intro resp provider apiKey groqApiKey nl weiRender sql hcond hg hok
    unfold nlToSqlRoute
    rw [hcond, if_neg Bool.false_ne_true, hg, if_pos rfl, hok]

/-- Witness for C8: a provider returning "DROP TABLE transactions" is
rejected and the route falls back to rule-based output; a provider
returning a SELECT statement is reported under the provider's name. -/
theorem nlToSql_fallback_spec_witness :
    (∃ msg, extractSql (LlmResponse.ok (some "DROP TABLE transactions"))
        = Except.error msg)
    ∧ nlToSqlRoute (LlmResponse.ok (some "DROP TABLE transactions"))
        (some "openai") (some "sk-test") none "hello" (fun m => m)
        = { sqlQuery := convertNaturalLanguageToSQL (fun m => m) (jsToLower "hello")
            method := "rule-based" }
    ∧ nlToSqlRoute (LlmResponse.ok (some "SELECT 1;")) (some "openai")
        (some "sk-test") none "hello" (fun m => m)
        = { sqlQuery := "SELECT 1;", method := (some "openai").getD "" } :=
  ⟨nlToSql_fallback_spec.1 "DROP TABLE transactions" (by decide),
   nlToSql_fallback_spec.2.1 (LlmResponse.ok (some "DROP TABLE transactions"))
     (some "openai") (some "sk-test") none "hello" (fun m => m)
     "Generated query is not a SELECT statement" (by decide) rfl,
   nlToSql_fallback_spec.2.2.2.1 (LlmResponse.ok (some "SELECT 1;"))
     (some "openai") (some "sk-test") none "hello" (fun m => m)
     "SELECT 1;" (by decide) rfl⟩

/-- Counterexample to C9 as stated: the input below contains a well-formed
40-hex-digit address, yet the earlier "latest" keyword rule wins, so the
produced SQL is the generic recency query and filters on no address at
all. -/
theorem addressRule_shadowed_counterexample :
    findAddress
        "latest transactions involving 0xaaaaaaaaaaaaaaaaaaaaaaaaaaaaaaaaaaaaaaaa"
        = some "0xaaaaaaaaaaaaaaaaaaaaaaaaaaaaaaaaaaaaaaaa"
    ∧ convertNaturalLanguageToSQL (fun m => m)
        "latest transactions involving 0xaaaaaaaaaaaaaaaaaaaaaaaaaaaaaaaaaaaaaaaa"
        = "SELECT * FROM transactions ORDER BY created_at DESC LIMIT 20;"
    ∧ jsIncludes
        (convertNaturalLanguageToSQL (fun m => m)
          "latest transactions involving 0xaaaaaaaaaaaaaaaaaaaaaaaaaaaaaaaaaaaaaaaa")
        "from_address" = false :=
  ⟨by decide, by decide, by decide⟩

/-- C9 (amended): for every input that contains a well-formed 40-hex-digit
address and matches none of the earlier keyword rules (large / big /
expensive, recent / latest / last / past, count / how many, top / most
active, value / amount / highest / largest, today / daily, gas), the
rule-based converter produces the SQL filtering
`from_address = '<addr>' OR to_address = '<addr>'`. -/
theorem addressRule_when_unshadowed (weiRender : String → String)
    (nl address : String)
    (h1 : jsIncludes nl "large" = false) (h2 : jsIncludes nl "big" = false)
    (h3 : jsIncludes nl "expensive" = false)
    (h4 : jsIncludes nl "recent" = false) (h5 : jsIncludes nl "latest" = false)
    (h6 : jsIncludes nl "last" = false) (h7 : jsIncludes nl "past" = false)
    (h8 : jsIncludes nl "count" = false) (h9 : jsIncludes nl "how many" = false)
    (h10 : jsIncludes nl "top" = false)
    (h11 : jsIncludes nl "most active" = false)
    (h12 : jsIncludes nl "value" = false) (h13 : jsIncludes nl "amount" = false)
    (h14 : jsIncludes nl "highest" = false)
    (h15 : jsIncludes nl "largest" = false)
    (h16 : jsIncludes nl "today" = false) (h17 : jsIncludes nl "daily" = false)
    (h18 : jsIncludes nl "gas" = false)
    (haddr : findAddress nl = some address) :
    convertNaturalLanguageToSQL weiRender nl
      = "SELECT * FROM transactions WHERE from_address = '" ++ address
          ++ "' OR to_address = '" ++ address
          ++ "' ORDER BY created_at DESC LIMIT 20;" := by
  unfold convertNaturalLanguageToSQL
  simp [h1, h2, h3, h4, h5, h6, h7, h8, h9, h10, h11, h12, h13, h14, h15,
    h16, h17, h18, haddr]

/-- Witness for C9 (amended): a keyword-free input containing an address
produces the address-filtered SQL. -/
theorem addressRule_when_unshadowed_witness :
    findAddress "transfers touching 0xabcdef0123456789abcdef0123456789abcdef01"
        = some "0xabcdef0123456789abcdef0123456789abcdef01"
    ∧ convertNaturalLanguageToSQL (fun m => m)
        "transfers touching 0xabcdef0123456789abcdef0123456789abcdef01"
      = "SELECT * FROM transactions WHERE from_address = '"
          ++ "0xabcdef0123456789abcdef0123456789abcdef01"
          ++ "' OR to_address = '"
          ++ "0xabcdef0123456789abcdef0123456789abcdef01"
          ++ "' ORDER BY created_at DESC LIMIT 20;" :=
  ⟨by decide,
   addressRule_when_unshadowed (fun m => m)
     "transfers touching 0xabcdef0123456789abcdef0123456789abcdef01"
     "0xabcdef0123456789abcdef0123456789abcdef01"
     (by decide) (by decide) (by decide) (by decide) (by decide) (by decide)
     (by decide) (by decide) (by decide) (by decide) (by decide) (by decide)
     (by decide) (by decide) (by decide) (by decide) (by decide) (by decide)
     (by decide)⟩

/-- Witness for C10: with capacity 2 and threshold 1, the state reached by
appending two hashes is SUSPENDED and its stack length is above the
threshold. -/
theorem suspended_implies_stack_ge_threshold_witness :
    (⟨2, 1⟩ : Config).Valid
      ∧ (addToStack ⟨2, 1⟩ true [{ hash := "a" }, { hash := "b" }]
          initState).fetchingEnabled = false
      ∧ (⟨2, 1⟩ : Config).stackResumeThreshold
          ≤ (addToStack ⟨2, 1⟩ true [{ hash := "a" }, { hash := "b" }]
              initState).pendingStack.length :=
  ⟨by show (1 : Nat) < 2; decide,
   by decide,
   suspended_implies_stack_ge_threshold ⟨2, 1⟩ (by show (1 : Nat) < 2; decide)
     (Reachable.step Reachable.init
       (Step.add initState true [{ hash := "a" }, { hash := "b" }]))
     (by decide)⟩

end EthSphere
